import Mathlib

/-!
Verification development for the livestock health/identity engine of the
Dark_Route_Backend repository (src/health_analyzer.py and
src/identification.py), as a shallow embedding in Lean 4.

Modelling conventions:
* Machine floats in the source only ever hold small decimal constants and
  ratios of integer-valued image statistics, so they are modelled as exact
  rationals.
* cv2/numpy feature extraction (contours, masks, histograms) is external
  library code; its scalar outputs are carried as explicit fields
  (FeatureBundle, LamenessFeatures, detection lists) and the repository
  logic downstream of them is translated line by line.
* Square roots (np.std, np.linalg.norm) are handled either by comparing
  squared quantities against squared thresholds (valid since both sides
  are nonnegative) or by abstracting the square-root map as an explicit
  function argument, as noted at each definition.
* np.random.random() in the pose-based lameness path is modelled as an
  explicit stream of draws (a function from draw index to value) supplied
  to the run.
-/

/-- Severity labels used across the analyzers
(the strings none / mild / moderate / severe in the source dicts). -/
inductive Severity where
  | none
  | mild
  | moderate
  | severe
  deriving DecidableEq

/-- Rank used by Python max(..., key=lambda x: {severe:3, moderate:2,
mild:1, none:0}[x]) in detect_visible_symptoms. -/
def Severity.rank : Severity → ℕ
  | .none => 0
  | .mild => 1
  | .moderate => 2
  | .severe => 3

/-- One symptom entry appended by detect_visible_symptoms: type tag,
description, severity, confidence, and its single quantitative metric
(count / percentage / area / texture_score field in the source dict). -/
structure SymptomRecord where
  stype : String
  description : String
  severity : Severity
  confidence : ℚ
  metric : ℚ
  deriving DecidableEq

/-- Return value of detect_visible_symptoms (health_analyzer.py 430-435). -/
structure SymptomSet where
  symptoms : List SymptomRecord
  total_detected : ℕ
  requires_attention : Bool
  highest_severity : Severity
  deriving DecidableEq

/-- Python max(severities, default=none, key=rank): scans left to right
and replaces the current best only on a strictly greater rank, so the
first record of maximal severity wins ties. -/
def highestSeverity (l : List Severity) : Severity :=
  l.foldl (fun acc s => if acc.rank < s.rank then s else acc) Severity.none

/-- detect_visible_symptoms (health_analyzer.py 304-435), expressed over
the four derived image metrics it branches on: dark-spot contour count,
red-hue pixel percentage, head-region bright-pixel area, and overall
grayscale standard deviation.  Each of the four detectors appends zero or
one record, in source order. -/
def detect_visible_symptoms (dark_spots_count : ℕ) (red_percentage : ℚ)
    (discharge_area : ℕ) (texture_std : ℚ) : SymptomSet :=
  let lesions : List SymptomRecord :=
    if dark_spots_count > 40 then
      [⟨"severe_lesions",
        "Multiple significant dark spots detected - possible severe skin lesions or mange",
        Severity.severe, 0.75, (dark_spots_count : ℚ)⟩]
    else if dark_spots_count > 25 then
      [⟨"moderate_lesions",
        "Several dark spots detected - possible skin lesions or parasitic infection",
        Severity.moderate, 0.68, (dark_spots_count : ℚ)⟩]
    else []
  let inflammation : List SymptomRecord :=
    if red_percentage > 0.50 then
      [⟨"severe_inflammation",
        "Significant redness detected - possible severe inflammation, fever, or infection",
        Severity.severe, 0.78, red_percentage * 100⟩]
    else if red_percentage > 0.40 then
      [⟨"moderate_inflammation",
        "Moderate redness detected - possible inflammation or mild fever",
        Severity.moderate, 0.70, red_percentage * 100⟩]
    else []
  let discharge : List SymptomRecord :=
    if discharge_area > 8000 then
      [⟨"significant_discharge",
        "Significant bright areas in head region - likely eye/nasal discharge",
        Severity.moderate, 0.65, (discharge_area : ℚ)⟩]
    else if discharge_area > 5000 then
      [⟨"possible_discharge",
        "Bright areas detected in head region - possible eye/nasal discharge",
        Severity.mild, 0.58, (discharge_area : ℚ)⟩]
    else []
  let coat : List SymptomRecord :=
    if texture_std < 15 then
      [⟨"poor_coat",
        "Dull or very poor coat quality - may indicate malnutrition or illness",
        Severity.moderate, 0.72, texture_std⟩]
    else if texture_std < 20 then
      [⟨"fair_coat",
        "Somewhat dull coat quality - monitor nutrition",
        Severity.mild, 0.62, texture_std⟩]
    else []
  let symptoms := lesions ++ inflammation ++ discharge ++ coat
  { symptoms := symptoms
    total_detected := symptoms.length
    requires_attention := symptoms.any fun s =>
      decide (s.severity = Severity.moderate ∨ s.severity = Severity.severe)
    highest_severity := highestSeverity (symptoms.map (·.severity)) }

/-! ## Body condition scoring (health_analyzer.py 23-157) -/

/-- Circularity bucket sub-score, 35% weight (lines 74-91). -/
def circularityFactor (c : ℚ) : ℚ :=
  if c > 0.70 then 4.5 else if c > 0.60 then 4.0 else if c > 0.50 then 3.5
  else if c > 0.40 then 3.0 else if c > 0.30 then 2.8 else 2.0

/-- Circularity bucket confidence increment (lines 74-91). -/
def circularityConf (c : ℚ) : ℚ :=
  if c > 0.70 then 0.35 else if c > 0.60 then 0.32 else if c > 0.50 then 0.30
  else if c > 0.40 then 0.25 else if c > 0.30 then 0.22 else 0.18

/-- Texture-smoothness bucket sub-score, 30% weight (lines 94-105). -/
def textureFactor (t : ℚ) : ℚ :=
  if t > 0.75 then 4.5 else if t > 0.60 then 3.5 else if t > 0.45 then 3.0 else 2.0

/-- Texture-smoothness bucket confidence increment (lines 94-105). -/
def textureConf (t : ℚ) : ℚ :=
  if t > 0.75 then 0.30 else if t > 0.60 then 0.28 else if t > 0.45 then 0.25 else 0.20

/-- Solidity bucket sub-score, 20% weight (lines 108-119). -/
def solidityFactor (s : ℚ) : ℚ :=
  if s > 0.85 then 4.0 else if s > 0.75 then 3.5 else if s > 0.65 then 3.0 else 2.5

/-- Solidity bucket confidence increment (lines 108-119). -/
def solidityConf (s : ℚ) : ℚ :=
  if s > 0.85 then 0.20 else if s > 0.75 then 0.18 else if s > 0.65 then 0.16 else 0.14

/-- Brightness bucket sub-score, 15% weight (lines 122-130).  The source
is a sequential if/elif chain, so the brightness_mean < 80 arm is reached
only after brightness_mean < 100 has already failed, and can never fire. -/
def brightnessFactor (b : ℚ) : ℚ :=
  if b > 160 then 4.0 else if b > 140 then 3.5
  else if b < 100 then 2.5 else if b < 80 then 2.0 else 3.0

/-- Python round() on a float: round half to even (banker's rounding). -/
def pyRound (q : ℚ) : ℤ :=
  if q - (⌊q⌋ : ℚ) < 1/2 then ⌊q⌋
  else if 1/2 < q - (⌊q⌋ : ℚ) then ⌊q⌋ + 1
  else if ⌊q⌋ % 2 = 0 then ⌊q⌋ else ⌊q⌋ + 1

/-- np.clip(x, lo, hi). -/
def clip (x lo hi : ℚ) : ℚ := min hi (max lo x)

/-- The body-shape metrics computed once per image and consumed by the
weighted-bucket scorer (the metrics sub-dict of the result). -/
structure FeatureBundle where
  circularity : ℚ
  texture_smoothness : ℚ
  solidity : ℚ
  brightness_mean : ℚ
  deriving DecidableEq

/-- Raw weighted score before clipping and rounding (lines 70-132). -/
def bcsRaw (fb : FeatureBundle) : ℚ :=
  circularityFactor fb.circularity * 0.35 + textureFactor fb.texture_smoothness * 0.30
  + solidityFactor fb.solidity * 0.20 + brightnessFactor fb.brightness_mean * 0.15

/-- Confidence accumulator (brightness always contributes 0.15). -/
def bcsConfidenceRaw (fb : FeatureBundle) : ℚ :=
  circularityConf fb.circularity + textureConf fb.texture_smoothness
  + solidityConf fb.solidity + 0.15

/-- bcs = int(round(np.clip(score, 1, 5))) (line 136). -/
def bcsScore (fb : FeatureBundle) : ℤ := pyRound (clip (bcsRaw fb) 1 5)

/-- final_confidence = min(0.95, confidence) (line 137). -/
def bcsConfidence (fb : FeatureBundle) : ℚ := min 0.95 (bcsConfidenceRaw fb)

/-- self.body_condition_thresholds (lines 15-21), keyed by final score. -/
def bodyConditionAssessment (score : ℤ) : String :=
  if score = 1 then "Emaciated - Immediate attention required"
  else if score = 2 then "Thin - Needs nutritional support"
  else if score = 3 then "Moderate - Acceptable condition"
  else if score = 4 then "Good - Optimal health"
  else if score = 5 then "Obese - Risk of health issues"
  else ""

/-- Return value of analyze_body_condition_score.  The metrics field is
none on the two fallback returns (lines 40 and 153-157), which omit the
metrics key. -/
structure BCSResult where
  score : ℤ
  confidence : ℚ
  assessment : String
  metrics : Option FeatureBundle
  deriving DecidableEq

/-- The happy-path scorer over an extracted feature bundle
(lines 68-149); this is the scoreBodyCondition surface of the spec. -/
def score_body_condition (fb : FeatureBundle) : BCSResult :=
  ⟨bcsScore fb, bcsConfidence fb, bodyConditionAssessment (bcsScore fb), some fb⟩

/-- Input image: buffer geometry plus the cv2-derived body-contour
feature bundle; features = none models the no-contour case (lines 39-40).
The pixel-level cv2 extraction is external library code, so its scalar
outputs are the FeatureBundle fields. -/
structure Image where
  height : ℕ
  width : ℕ
  channels : ℕ
  features : Option FeatureBundle
  deriving DecidableEq

/-- cv2.cvtColor with COLOR_BGR2GRAY raises on a zero-area buffer or on a
channel layout it cannot convert — the conversion accepts 3-channel (BGR)
and 4-channel (BGRA) source buffers, so only other channel counts are
incompatible.  These are the malformed inputs of the error-handling
taxonomy; a 4-channel image converts fine and is scored normally. -/
def malformedImage (img : Image) : Bool :=
  decide (img.height = 0 ∨ img.width = 0 ∨ (img.channels ≠ 3 ∧ img.channels ≠ 4))

/-- The except-branch return of analyze_body_condition_score
(lines 151-157). -/
def bcsFallbackResult : BCSResult :=
  ⟨3, 0.2, "Analysis failed - manual inspection required", none⟩

/-- The no-contour return (line 40). -/
def bcsNoContourResult : BCSResult :=
  ⟨3, 0.3, "Insufficient data", none⟩

/-- analyze_body_condition_score (lines 23-157): the try/except wrapper
catches the cvtColor error on malformed input and returns the fixed
fallback dict; with no contour it returns the insufficient-data dict;
otherwise it runs the weighted-bucket scorer. -/
def analyze_body_condition_score (img : Image) : BCSResult :=
  if malformedImage img then bcsFallbackResult
  else
    match img.features with
    | Option.none => bcsNoContourResult
    | Option.some fb => score_body_condition fb

/-! ## C1: symptom-detector reference case -/

/-- C1 counterexample: on derived metrics dark_spots_count=9,
red_percentage=0.22, discharge_area=2200, texture_std=18 the symptom set
does NOT contain at least 4 records with requires_attention true: the
detector returns a single mild record and requires_attention = false
(9 ≤ 25, 0.22 ≤ 0.40, 2200 ≤ 5000, and only 15 ≤ 18 < 20 fires). -/
theorem c1_symptom_ref_counterexample :
    ¬(4 ≤ (detect_visible_symptoms 9 0.22 2200 18).total_detected ∧
      (detect_visible_symptoms 9 0.22 2200 18).requires_attention = true) := by
  norm_num [detect_visible_symptoms]

/-- C1 amended: on those derived metrics the symptom set contains exactly
one record — fair_coat, severity mild, confidence 0.62 — and
requires_attention is false (highest_severity mild). -/
theorem c1_symptom_ref_amended :
    detect_visible_symptoms 9 0.22 2200 18 =
      ⟨[⟨"fair_coat", "Somewhat dull coat quality - monitor nutrition",
         Severity.mild, 0.62, 18⟩], 1, false, Severity.mild⟩ := by
  norm_num [detect_visible_symptoms, highestSeverity, Severity.rank]
  decide

/-! ## C5: brightness bucket for brightness_mean < 80 -/

/-- C5 counterexample: at brightness_mean = 70 < 80 the brightness bucket
sub-score is 2.5, not 2.0 as claimed — the < 80 arm of the elif chain is
shadowed by the < 100 arm. -/
theorem c5_brightness_counterexample :
    (70 : ℚ) < 80 ∧ brightnessFactor 70 = 2.5 ∧ (2.5 : ℚ) ≠ 2.0 := by
  refine ⟨by norm_num, by norm_num [brightnessFactor], by norm_num⟩

/-- C5 amended: for every brightness_mean < 80 the brightness bucket
sub-score is 2.5 (contributing 2.5 × 0.15 = 0.375 to the raw weighted
score); the 2.0 arm is dead code. -/
theorem c5_brightness_amended (b : ℚ) (h : b < 80) : brightnessFactor b = 2.5 := by
  unfold brightnessFactor
  split_ifs <;> first | rfl | linarith

/-- Witness for C5 amended at brightness_mean = 70. -/
theorem c5_brightness_amended_witness : brightnessFactor 70 = 2.5 :=
  c5_brightness_amended 70 (by norm_num)

/-! ## Lameness detection (health_analyzer.py 159-302) -/

/-- str.capitalize() applied to the severity label (line 239). -/
def Severity.capitalized : Severity → String
  | .none => "None"
  | .mild => "Mild"
  | .moderate => "Moderate"
  | .severe => "Severe"

/-- Derived image statistics consumed by the image-based lameness path:
left/right asymmetry score, per-half activity (std-dev of each half), and
Canny edge density; posture_deviation = |edge_density − 0.15| is derived
from the last one (line 195). -/
structure LamenessFeatures where
  asymmetry_score : ℚ
  left_activity : ℚ
  right_activity : ℚ
  edge_density : ℚ
  deriving DecidableEq

/-- Return dict of detect_lameness / _analyze_lameness_from_pose.  Keys
that a given return statement omits from its dict are modelled as none. -/
structure LamenessResult where
  detected : Bool
  confidence : ℚ
  severity : Option Severity
  lameness_score : Option ℚ
  affected_limb : Option String
  asymmetry_score : Option ℚ
  activity_difference : Option ℚ
  recommendation : Option String
  deriving DecidableEq

/-- The image-symmetry fallback path of detect_lameness (lines 170-254),
translated over the derived statistics. -/
def detect_lameness_image (f : LamenessFeatures) : LamenessResult :=
  let activity_diff := |f.left_activity - f.right_activity| /
    max (max f.left_activity f.right_activity) 1
  let posture_deviation := |f.edge_density - 0.15|
  let asym : ℚ × Severity :=
    if f.asymmetry_score > 0.35 then (0.40, Severity.severe)
    else if f.asymmetry_score > 0.25 then (0.35, Severity.moderate)
    else if f.asymmetry_score > 0.18 then (0.25, Severity.mild)
    else (0, Severity.none)
  let s2 : ℚ := if activity_diff > 0.25 then 0.35 else if activity_diff > 0.15 then 0.25 else 0
  let s3 : ℚ := if posture_deviation > 0.20 then 0.25 else if posture_deviation > 0.12 then 0.15 else 0
  let lameness_score := asym.1 + s2 + s3
  let affected_limb :=
    if lameness_score > 0.3 then
      if f.left_activity < f.right_activity * 0.85 then "Left side (probable)"
      else if f.right_activity < f.left_activity * 0.85 then "Right side (probable)"
      else "Both sides or hind legs"
    else "Unknown - video analysis recommended"
  let lameness_detected : Bool := decide (lameness_score > 0.25)
  let confidence : ℚ := if lameness_detected then min 0.90 (lameness_score + 0.20) else 0.35
  let recommendation :=
    if lameness_detected then
      "⚠️ " ++ asym.2.capitalized ++
        " lameness detected - Conduct gait analysis and veterinary examination"
    else "✓ No significant lameness detected from static image"
  ⟨lameness_detected, confidence, some asym.2, some lameness_score, some affected_limb,
   some f.asymmetry_score, some activity_diff, some recommendation⟩

/-- Population variance Σ(x−μ)²/n.  np.std(l) is its square root, so the
source comparisons np.std(l) > 0.2 and np.std(l) > 0.3 are modelled as
popVariance l > 0.04 and popVariance l > 0.09, which is equivalent since
both sides of each comparison are nonnegative. -/
def popVariance (l : List ℚ) : ℚ :=
  let n : ℚ := l.length
  let m := l.sum / n
  (l.map (fun x => (x - m)^2)).sum / n

/-- _analyze_lameness_from_pose (lines 264-302).  leg_metrics is filled
with np.random.random() draws (the source placeholder), modelled as the
first min(4, len/3) values of the supplied draw stream. -/
def analyze_lameness_from_pose (keypoints : List ℚ) (rng : ℕ → ℚ) : LamenessResult :=
  if keypoints.length < 10 then
    ⟨false, 0.4, Option.none, Option.none, Option.none, Option.none, Option.none,
     some "Insufficient pose data for lameness assessment"⟩
  else
    let leg_metrics := (List.range (min 4 (keypoints.length / 3))).map rng
    if leg_metrics.length ≥ 2 then
      let variation := popVariance leg_metrics
      let lameness_detected : Bool := decide (variation > 0.04)
      ⟨lameness_detected, 0.80,
       some (if variation > 0.09 then Severity.moderate else Severity.mild),
       Option.none, some "Pose-based analysis", Option.none, Option.none,
       some (if lameness_detected then "⚠️ Abnormal gait pattern detected via pose analysis"
             else "✓ Normal gait pattern")⟩
    else
      ⟨false, 0.0, Option.none, Option.none, Option.none, Option.none, Option.none, Option.none⟩

/-- detect_lameness (lines 159-254): a nonempty keypoint list delegates
to the pose path, otherwise the image-symmetry path runs.  rng supplies
the np.random.random() draws consumed by one run. -/
def detect_lameness (f : LamenessFeatures) (pose_keypoints : Option (List ℚ))
    (rng : ℕ → ℚ) : LamenessResult :=
  match pose_keypoints with
  | Option.some ks =>
      if ks.length > 0 then analyze_lameness_from_pose ks rng else detect_lameness_image f
  | Option.none => detect_lameness_image f

/-! ## C7: lameness reference case -/

/-- C7: on derived metrics asymmetry_score = 0.32, left_activity = 38,
right_activity = 55, edge_density = 0.37 (so posture_deviation = 0.22 and
activity difference 17/55 ≈ 0.309), detect_lameness returns
detected = true, severity moderate (0.25 < 0.32 ≤ 0.35), lameness_score
0.95, confidence 0.90, and affected_limb "Left side (probable)" since
38 < 0.85 × 55. -/
theorem c7_lameness_ref_case (rng : ℕ → ℚ) :
    detect_lameness ⟨0.32, 38, 55, 0.37⟩ Option.none rng =
      ⟨true, 0.90, some Severity.moderate, some 0.95, some "Left side (probable)",
       some 0.32, some (17/55),
       some "⚠️ Moderate lameness detected - Conduct gait analysis and veterinary examination"⟩ := by
  have habs : |(11 : ℚ)/50| = 11/50 := abs_of_nonneg (by norm_num)
  norm_num [detect_lameness, detect_lameness_image, Severity.capitalized, habs]
  decide

/-! ## C3: determinism of detect_lameness -/

/-- C3 counterexample: with a 12-entry keypoint list the pose path runs
and its result depends on the np.random.random() draws, so two runs on
identical inputs can disagree — a constant draw stream yields
detected = false while an alternating 0/1 stream yields detected = true. -/
theorem c3_determinism_counterexample :
    detect_lameness ⟨0.1, 50, 50, 0.15⟩ (Option.some (List.replicate 12 0)) (fun _ => 1/2) ≠
    detect_lameness ⟨0.1, 50, 50, 0.15⟩ (Option.some (List.replicate 12 0))
      (fun i => if i % 2 = 0 then 0 else 1) := by
  norm_num [detect_lameness, analyze_lameness_from_pose, popVariance, List.range_succ]

/-- C3 amended: detect_lameness is deterministic per input on every path
that consumes no random draws — whenever the keypoint list is absent,
empty, or shorter than 10 entries, two runs on identical inputs return
identical results; the pose path with ≥ 10 keypoints is randomized. -/
theorem c3_determinism_amended (f : LamenessFeatures) (pose : Option (List ℚ))
    (r1 r2 : ℕ → ℚ) (h : ∀ ks, pose = Option.some ks → ks.length < 10) :
    detect_lameness f pose r1 = detect_lameness f pose r2 := by
  cases pose with
  | none => rfl
  | some ks =>
    have hk := h ks rfl
    by_cases hlen : ks.length > 0
    · simp [detect_lameness, hlen, analyze_lameness_from_pose, hk]
    · simp [detect_lameness, hlen]

/-- Witness for C3 amended: the image path at the C7 feature values. -/
theorem c3_determinism_amended_witness :
    detect_lameness ⟨0.32, 38, 55, 0.37⟩ Option.none (fun _ => 0) =
    detect_lameness ⟨0.32, 38, 55, 0.37⟩ Option.none (fun _ => 1) :=
  c3_determinism_amended ⟨0.32, 38, 55, 0.37⟩ Option.none (fun _ => 0) (fun _ => 1)
    (fun _ h => Option.noConfusion h)

/-! ## Identification (identification.py) -/

/-- One decoded optical code (a detect_qr_codes result entry; the
detector fixes confidence at 0.95 and also reports type and bbox, which
identify_animal never reads). -/
structure QRDetection where
  data : String
  confidence : ℚ
  deriving DecidableEq

/-- One colored-tag candidate (a detect_ear_tags result entry; bbox and
area are not read by identify_animal). -/
structure TagDetection where
  color : String
  confidence : ℚ
  deriving DecidableEq

/-- One biometric signature record (facial or muzzle extraction); only
its confidence is read by identify_animal. -/
structure SigDetection where
  confidence : ℚ
  deriving DecidableEq

/-- The results dict of identify_animal (identification.py 244-252):
the echoed detection lists plus the aggregated fields.  matched is false
unless the known-identifier match sets it; qr_id / ear_tag_color model
the detected_identifiers entries. -/
structure IdentificationResult where
  qr_codes : List QRDetection
  ear_tags : List TagDetection
  facial_features : Option SigDetection
  muzzle_pattern : Option SigDetection
  confidence_score : ℚ
  primary_method : Option String
  matched : Bool
  qr_id : Option String
  ear_tag_color : Option String
  deriving DecidableEq

/-- Step 1 of identify_animal (lines 255-260): qr codes. -/
def idStepQR (r : IdentificationResult) : IdentificationResult :=
  match r.qr_codes with
  | [] => r
  | q :: _ => { r with confidence_score := max r.confidence_score q.confidence,
                       primary_method := some "qr_code", qr_id := some q.data }

/-- Step 2 (lines 263-268): ear tags, only when no qr code was found. -/
def idStepTag (r : IdentificationResult) : IdentificationResult :=
  match r.ear_tags, r.qr_codes with
  | t :: _, [] => { r with confidence_score := max r.confidence_score t.confidence,
                           primary_method := some "ear_tag", ear_tag_color := some t.color }
  | _, _ => r

/-- Step 3 (lines 271-275): facial features, only when no primary method
has been chosen yet. -/
def idStepFacial (r : IdentificationResult) : IdentificationResult :=
  match r.facial_features, r.primary_method with
  | Option.some fs, Option.none =>
      { r with confidence_score := max r.confidence_score fs.confidence,
               primary_method := some "facial_biometric" }
  | _, _ => r

/-- Step 4 (lines 278-282): muzzle pattern, only when no primary method
has been chosen yet. -/
def idStepMuzzle (r : IdentificationResult) : IdentificationResult :=
  match r.muzzle_pattern, r.primary_method with
  | Option.some ms, Option.none =>
      { r with confidence_score := max r.confidence_score ms.confidence,
               primary_method := some "muzzle_biometric" }
  | _, _ => r

/-- Step 5 (lines 285-291): known-identifier match.  An empty known id
string is falsy in the source and disables the step; otherwise a decoded
code equal to it promotes confidence_score to 0.98 and sets matched. -/
def idStepKnown (known_qr_id : Option String) (r : IdentificationResult) :
    IdentificationResult :=
  match known_qr_id with
  | Option.none => r
  | Option.some kid =>
      if kid ≠ "" ∧ ∃ q ∈ r.qr_codes, q.data = kid then
        { r with confidence_score := 0.98, matched := true }
      else r

/-- identify_animal (identification.py 239-293), expressed over the
outputs of the four sub-detectors (wrappers of external cv2/pyzbar code)
and the optional known qr identifier; the five sequential mutation steps
of the source are the five idStep functions applied in order. -/
def identify_animal (qr_codes : List QRDetection) (ear_tags : List TagDetection)
    (facial : Option SigDetection) (muzzle : Option SigDetection)
    (known_qr_id : Option String) : IdentificationResult :=
  idStepKnown known_qr_id (idStepMuzzle (idStepFacial (idStepTag (idStepQR
    ⟨qr_codes, ear_tags, facial, muzzle, 0, Option.none, false, Option.none, Option.none⟩))))

/-- Modelled from the spec wording of C4 (not from the source): the
maximum confidence among all populated detections — every decoded code,
every tag candidate, and each present signature. -/
def specMaxPopulatedConfidence (qr_codes : List QRDetection) (ear_tags : List TagDetection)
    (facial : Option SigDetection) (muzzle : Option SigDetection) : ℚ :=
  ((qr_codes.map (·.confidence)) ++ (ear_tags.map (·.confidence))
    ++ (facial.toList.map (·.confidence)) ++ (muzzle.toList.map (·.confidence))).foldl max 0

/-- What the code actually reports: the head confidence of the first
populated detection category in precedence order
(qr > ear tag > facial > muzzle), floored at the 0.0 initial value. -/
def firstPopulatedConfidence (qr_codes : List QRDetection) (ear_tags : List TagDetection)
    (facial : Option SigDetection) (muzzle : Option SigDetection) : ℚ :=
  match qr_codes, ear_tags, facial, muzzle with
  | q :: _, _, _, _ => max 0 q.confidence
  | [], t :: _, _, _ => max 0 t.confidence
  | [], [], Option.some fs, _ => max 0 fs.confidence
  | [], [], Option.none, Option.some ms => max 0 ms.confidence
  | [], [], Option.none, Option.none => 0

/-- Supplying a known identifier that fires no exact decoded-code match
leaves the identify_animal result unchanged. -/
theorem identify_animal_known_no_match (qr_codes : List QRDetection)
    (ear_tags : List TagDetection) (facial : Option SigDetection)
    (muzzle : Option SigDetection) (kid : String)
    (h : kid = "" ∨ ∀ q ∈ qr_codes, q.data ≠ kid) :
    identify_animal qr_codes ear_tags facial muzzle (Option.some kid) =
    identify_animal qr_codes ear_tags facial muzzle Option.none := by
  have hq : (idStepMuzzle (idStepFacial (idStepTag (idStepQR
      ⟨qr_codes, ear_tags, facial, muzzle, 0, Option.none, false, Option.none,
       Option.none⟩)))).qr_codes = qr_codes := by
    unfold idStepQR idStepTag idStepFacial idStepMuzzle
    cases qr_codes <;> cases ear_tags <;> cases facial <;> cases muzzle <;> simp
  have hneg : ¬(kid ≠ "" ∧ ∃ q ∈ (idStepMuzzle (idStepFacial (idStepTag (idStepQR
      ⟨qr_codes, ear_tags, facial, muzzle, 0, Option.none, false, Option.none,
       Option.none⟩)))).qr_codes, q.data = kid) := by
    rw [hq]
    rcases h with h | h
    · exact fun hc => hc.1 h
    · rintro ⟨-, q, hqm, hdq⟩
      exact h q hqm hdq
  simp [identify_animal, idStepKnown, hneg]

/-- With no known identifier supplied, confidence_score is the confidence
of the first populated detection category in precedence order. -/
theorem identify_animal_no_known_confidence (qr_codes : List QRDetection)
    (ear_tags : List TagDetection) (facial : Option SigDetection)
    (muzzle : Option SigDetection) :
    (identify_animal qr_codes ear_tags facial muzzle Option.none).confidence_score =
      firstPopulatedConfidence qr_codes ear_tags facial muzzle := by
  cases qr_codes <;> cases ear_tags <;> cases facial <;> cases muzzle <;>
    simp [identify_animal, idStepQR, idStepTag, idStepFacial, idStepMuzzle, idStepKnown,
      firstPopulatedConfidence]

/-! ## C4: confidence_score aggregation in identify_animal -/

/-- C4 counterexample: with no decoded code, one colored tag of
confidence 0.57, and a facial signature of confidence 0.75 (no known
identifier, so no match fires), identify_animal reports
confidence_score 0.57 — the tag's confidence — not the maximum 0.75 over
all populated detections: the facial max-update is skipped because the
tag already set primary_method. -/
theorem c4_confidence_counterexample :
    (identify_animal [] [⟨"yellow", 0.57⟩] (Option.some ⟨0.75⟩) Option.none
        Option.none).confidence_score ≠
      specMaxPopulatedConfidence [] [⟨"yellow", 0.57⟩] (Option.some ⟨0.75⟩) Option.none := by
  norm_num [identify_animal, idStepQR, idStepTag, idStepFacial, idStepMuzzle, idStepKnown,
    specMaxPopulatedConfidence]

/-- C4 amended: when no known-identifier match fires, the returned
confidence_score equals the confidence of the primary (first populated in
precedence order qr > tag > facial > muzzle) detection, floored at 0 —
not the maximum over all populated detections. -/
theorem c4_confidence_amended (qr_codes : List QRDetection) (ear_tags : List TagDetection)
    (facial : Option SigDetection) (muzzle : Option SigDetection)
    (known_qr_id : Option String)
    (h : ∀ kid, known_qr_id = Option.some kid → kid = "" ∨ ∀ q ∈ qr_codes, q.data ≠ kid) :
    (identify_animal qr_codes ear_tags facial muzzle known_qr_id).confidence_score =
      firstPopulatedConfidence qr_codes ear_tags facial muzzle := by
  cases known_qr_id with
  | none => exact identify_animal_no_known_confidence qr_codes ear_tags facial muzzle
  | some kid =>
      rw [identify_animal_known_no_match qr_codes ear_tags facial muzzle kid (h kid rfl)]
      exact identify_animal_no_known_confidence qr_codes ear_tags facial muzzle

/-- Witness for C4 amended at the counterexample input. -/
theorem c4_confidence_amended_witness :
    (identify_animal [] [⟨"yellow", 0.57⟩] (Option.some ⟨0.75⟩) Option.none
        Option.none).confidence_score =
      firstPopulatedConfidence [] [⟨"yellow", 0.57⟩] (Option.some ⟨0.75⟩) Option.none :=
  c4_confidence_amended [] [⟨"yellow", 0.57⟩] (Option.some ⟨0.75⟩) Option.none Option.none
    (fun _ h => Option.noConfusion h)

/-! ## Signature comparison (identification.py 326-356) -/

/-- compare_biometric_signatures.  np.linalg.norm is the square root of
the sum of squares; the square-root map is abstracted as the explicit
argument sqrtFn applied to that sum, so the zero-norm test and the cosine
ratio are expressed through sqrtFn exactly as the source computes them
through sqrt.  The symmetry theorem below holds for every sqrtFn, hence
in particular for the true square root. -/
def compare_biometric_signatures (sqrtFn : ℚ → ℚ) (sig1 sig2 : List ℚ)
    (threshold : ℚ) : Bool × ℚ :=
  if sig1 = [] ∨ sig2 = [] then (false, 0)
  else
    let m := min sig1.length sig2.length
    let a := sig1.take m
    let b := sig2.take m
    let dot := (List.zipWith (fun x y => x * y) a b).sum
    let norm1 := sqrtFn ((a.map fun x => x^2).sum)
    let norm2 := sqrtFn ((b.map fun x => x^2).sum)
    if norm1 = 0 ∨ norm2 = 0 then (false, 0)
    else
      let similarity := clip (dot / (norm1 * norm2)) 0 1
      (decide (similarity ≥ threshold), similarity)

/-- Elementwise products of two lists do not depend on the order of the
two lists. -/
theorem zipWith_mul_comm (a b : List ℚ) :
    List.zipWith (fun x y => x * y) a b = List.zipWith (fun x y => x * y) b a := by
  induction a generalizing b with
  | nil => cases b <;> simp
  | cons x xs ih =>
    cases b with
    | nil => simp
    | cons y ys => simp [List.zipWith, ih, mul_comm]

/-! ## C8: symmetry of signature comparison -/

/-- C8: compare_biometric_signatures is symmetric — for every square-root
map, every pair of vectors and every threshold, swapping the two vectors
returns the same (is_match, similarity) pair, including the empty-vector
and zero-norm early returns. -/
theorem c8_compare_signatures_symm (sqrtFn : ℚ → ℚ) (A B : List ℚ) (t : ℚ) :
    compare_biometric_signatures sqrtFn A B t =
    compare_biometric_signatures sqrtFn B A t := by
  unfold compare_biometric_signatures
  by_cases h1 : A = []
  · by_cases h2 : B = [] <;> simp [h1, h2]
  · by_cases h2 : B = []
    · simp [h1, h2]
    · simp only [h1, h2, or_self, if_false]
      rw [min_comm B.length A.length, zipWith_mul_comm (B.take (min A.length B.length))]
      exact if_congr or_comm rfl (by rw [mul_comm])

/-! ## Assessment fusion (health_analyzer.py 456-581) -/

/-- Optional vital-sign readings; each key independently absent
(vitals.get(...) returning None in the source). -/
structure VitalsReading where
  body_temperature_c : Option ℚ
  heart_rate_bpm : Option ℚ
  respiratory_rate_bpm : Option ℚ
  weight_kg : Option ℚ
  deriving DecidableEq

/-- An alert string appended during fusion, modelled as a tagged value
carrying exactly the data interpolated into the f-string it renders to
(lines 478, 481, 488, 498, 575, 577). -/
inductive Alert where
  | bcsCritical
  | bcsObese
  | lamenessDetected (limb : String)
  | symptomAlert (description : String)
  | vitalBelow (name : String) (value low high : ℚ)
  | vitalAbove (name : String) (value low high : ℚ)
  deriving DecidableEq

/-- A confirmatory note from _assess_vitals (line 579). -/
inductive Note where
  | vitalNormal (name : String) (value : ℚ)
  deriving DecidableEq

/-- The alerts/notes dict built by _assess_vitals. -/
structure VitalsAssessment where
  alerts : List Alert
  notes : List Note
  deriving DecidableEq

/-- One iteration of the _assess_vitals range loop (lines 571-579). -/
def checkVital (name : String) (value : Option ℚ) (low high : ℚ) : VitalsAssessment :=
  match value with
  | Option.none => ⟨[], []⟩
  | Option.some v =>
      if v < low then ⟨[Alert.vitalBelow name v low high], []⟩
      else if v > high then ⟨[Alert.vitalAbove name v low high], []⟩
      else ⟨[], [Note.vitalNormal name v]⟩

/-- _assess_vitals (lines 559-581), iterating the normal_ranges dict in
its insertion order. -/
def assess_vitals (v : VitalsReading) : VitalsAssessment :=
  let c1 := checkVital "body_temperature_c" v.body_temperature_c 38.0 39.5
  let c2 := checkVital "heart_rate_bpm" v.heart_rate_bpm 48 84
  let c3 := checkVital "respiratory_rate_bpm" v.respiratory_rate_bpm 10 30
  let c4 := checkVital "weight_kg" v.weight_kg 200 800
  ⟨c1.alerts ++ c2.alerts ++ c3.alerts ++ c4.alerts,
   c1.notes ++ c2.notes ++ c3.notes ++ c4.notes⟩

/-- The assessment dict returned by comprehensive_health_assessment
(lines 461-471); vitals_analysis is none when no vitals were supplied
(the source leaves the empty placeholder dict). -/
structure HealthAssessment where
  overall_status : String
  health_score : ℤ
  body_condition : BCSResult
  lameness : LamenessResult
  symptoms : SymptomSet
  vitals_analysis : Option VitalsAssessment
  alerts : List Alert
  recommendations : List String
  deriving DecidableEq

/-- BCS contribution to the overall score (lines 511-518). -/
def bcsScoreAdjust (score : ℤ) : ℤ :=
  if score = 3 ∨ score = 4 then 15
  else if score = 2 then -10
  else if score = 5 then -8
  else if score = 1 then -35
  else 0

/-- Lameness contribution (lines 521-528); severity is read with
.get(severity, mild), so a missing key counts as mild, and any label
other than severe/moderate falls into the −5 arm. -/
def lamenessAdjust (lr : LamenessResult) : ℤ :=
  if lr.detected then
    match lr.severity.getD Severity.mild with
    | Severity.severe => -25
    | Severity.moderate => -12
    | _ => -5
  else 0

/-- Symptom contribution (lines 531-537), summed over all records. -/
def symptomsAdjust (ss : SymptomSet) : ℤ :=
  ss.symptoms.foldl (fun acc s =>
    acc - (if s.severity = Severity.severe then 20
           else if s.severity = Severity.moderate then 10 else 2)) 0

/-- The health_score variable before the final clamp (lines 508-537). -/
def rawHealthScore (bcs : BCSResult) (lr : LamenessResult) (ss : SymptomSet) : ℤ :=
  85 + bcsScoreAdjust bcs.score + lamenessAdjust lr + symptomsAdjust ss

/-- Status buckets (lines 542-549).  The source compares the raw
(pre-clamp) health_score variable against these thresholds. -/
def statusOfScore (n : ℤ) : String :=
  if n ≥ 80 then "Healthy"
  else if n ≥ 60 then "Fair - Monitor Closely"
  else if n ≥ 40 then "Poor - Intervention Needed"
  else "Critical - Immediate Attention Required"

/-- comprehensive_health_assessment (lines 456-557), expressed over the
three sub-results plus optional vitals — the fuse surface of the spec
(the source computes the sub-results from the image with the analyzers
above and then combines them exactly as here, in the same append order). -/
def fuse (bcs : BCSResult) (lr : LamenessResult) (ss : SymptomSet)
    (vitals : Option VitalsReading) : HealthAssessment :=
  let bcsAlerts : List Alert :=
    if bcs.score ≤ 2 then [Alert.bcsCritical]
    else if bcs.score ≥ 5 then [Alert.bcsObese] else []
  let bcsRecs : List String :=
    if bcs.score ≤ 2 then ["Increase feed quality and quantity immediately"] else []
  let lameAlerts : List Alert :=
    if lr.detected then [Alert.lamenessDetected (lr.affected_limb.getD "")] else []
  let lameRecs : List String :=
    if lr.detected then ["Schedule immediate hoof inspection and veterinary examination"]
    else []
  let sympAlerts : List Alert :=
    if ss.requires_attention then
      (ss.symptoms.filter fun s =>
        decide (s.severity = Severity.moderate ∨ s.severity = Severity.severe)).map
        fun s => Alert.symptomAlert s.description
    else []
  let va : Option VitalsAssessment := vitals.map assess_vitals
  let vitalAlerts : List Alert := (va.map (·.alerts)).getD []
  let alerts := bcsAlerts ++ lameAlerts ++ sympAlerts ++ vitalAlerts
  let raw := rawHealthScore bcs lr ss
  let recs := bcsRecs ++ lameRecs
    ++ (if alerts = [] then ["✓ Animal appears healthy - continue routine monitoring"] else [])
    ++ ["📋 Document in daily attendance and health log"]
  { overall_status := statusOfScore raw
    health_score := max 0 (min 100 raw)
    body_condition := bcs
    lameness := lr
    symptoms := ss
    vitals_analysis := va
    alerts := alerts
    recommendations := recs }

/-! ## C9: vitals are score-neutral in fusion -/

/-- C9 amended: holding the three sub-results fixed, supplying any
vitals reading leaves health_score, overall_status, and the three echoed
sub-result fields identical to the no-vitals run; vitals can change only
vitals_analysis, alerts, and — through the appears-healthy default that
fires only when the alert list is empty — the recommendations list. -/
theorem c9_vitals_frame_amended (bcs : BCSResult) (lr : LamenessResult) (ss : SymptomSet)
    (v : VitalsReading) :
    (fuse bcs lr ss (Option.some v)).health_score = (fuse bcs lr ss Option.none).health_score ∧
    (fuse bcs lr ss (Option.some v)).overall_status =
      (fuse bcs lr ss Option.none).overall_status ∧
    (fuse bcs lr ss (Option.some v)).body_condition =
      (fuse bcs lr ss Option.none).body_condition ∧
    (fuse bcs lr ss (Option.some v)).lameness = (fuse bcs lr ss Option.none).lameness ∧
    (fuse bcs lr ss (Option.some v)).symptoms = (fuse bcs lr ss Option.none).symptoms :=
  ⟨rfl, rfl, rfl, rfl, rfl⟩

/-- C9 counterexample to the claim as stated: vitals do not change only
the vitals_analysis findings and the alerts/notes — on an otherwise
alert-free input, an out-of-range temperature reading (40 °C) suppresses
the appears-healthy default, so the recommendations list also changes. -/
theorem c9_vitals_frame_counterexample :
    (fuse ⟨4, 0.8, "Good - Optimal health", Option.none⟩
        ⟨false, 0.35, Option.some Severity.none, Option.some 0, Option.none, Option.none,
         Option.none, Option.none⟩
        ⟨[], 0, false, Severity.none⟩
        (Option.some ⟨Option.some 40, Option.none, Option.none, Option.none⟩)).recommendations ≠
    (fuse ⟨4, 0.8, "Good - Optimal health", Option.none⟩
        ⟨false, 0.35, Option.some Severity.none, Option.some 0, Option.none, Option.none,
         Option.none, Option.none⟩
        ⟨[], 0, false, Severity.none⟩ Option.none).recommendations := by
  norm_num [fuse, assess_vitals, checkVital]

/-! ## C10: status bucket agrees with the stored clamped score -/

/-- C10: although the source selects overall_status from the raw
pre-clamp score while storing the clamped one, the two always agree — for
every input the returned overall_status equals the bucket of the stored
health_score, because clamping to [0,100] never moves a score across the
80/60/40 boundaries. -/
theorem c10_status_bucket_agrees (bcs : BCSResult) (lr : LamenessResult) (ss : SymptomSet)
    (vitals : Option VitalsReading) :
    (fuse bcs lr ss vitals).overall_status =
      statusOfScore (fuse bcs lr ss vitals).health_score := by
  show statusOfScore (rawHealthScore bcs lr ss) =
    statusOfScore (max 0 (min 100 (rawHealthScore bcs lr ss)))
  generalize rawHealthScore bcs lr ss = n
  unfold statusOfScore
  split_ifs <;> first | rfl | omega

/-! ## C2: malformed input is not a fail-fast error -/

/-- C2 counterexample: on a malformed (zero-area) image, body-condition
scoring does not signal an error — the except branch swallows the
cvtColor failure and returns an ordinary result carrying score 3 and
confidence 0.2. -/
theorem c2_malformed_counterexample :
    analyze_body_condition_score ⟨0, 640, 3, Option.none⟩ = bcsFallbackResult ∧
    (analyze_body_condition_score ⟨0, 640, 3, Option.none⟩).score = 3 := by
  constructor <;> rfl

/-- C2 amended: for every malformed input (zero area, or a channel
layout the grayscale conversion rejects — neither 3 nor 4 channels),
body-condition scoring returns the fixed fallback result — score 3, low
confidence 0.2, and the failure-labelling assessment text — rather than
signalling an error. -/
theorem c2_malformed_amended (img : Image) (h : malformedImage img = true) :
    analyze_body_condition_score img = bcsFallbackResult := by
  simp [analyze_body_condition_score, h]

/-- Witness for C2 amended at a 640-wide zero-height 3-channel buffer. -/
theorem c2_malformed_amended_witness :
    analyze_body_condition_score ⟨0, 640, 3, Option.none⟩ = bcsFallbackResult :=
  c2_malformed_amended ⟨0, 640, 3, Option.none⟩ (by decide)

/-! ## C6: monotonicity of body-condition scoring -/

/-- The circularity bucket map is monotone non-decreasing. -/
theorem circularityFactor_mono {x y : ℚ} (h : x ≤ y) :
    circularityFactor x ≤ circularityFactor y := by
  unfold circularityFactor
  split_ifs <;> linarith

/-- The texture-smoothness bucket map is monotone non-decreasing. -/
theorem textureFactor_mono {x y : ℚ} (h : x ≤ y) :
    textureFactor x ≤ textureFactor y := by
  unfold textureFactor
  split_ifs <;> linarith

/-- The solidity bucket map is monotone non-decreasing. -/
theorem solidityFactor_mono {x y : ℚ} (h : x ≤ y) :
    solidityFactor x ≤ solidityFactor y := by
  unfold solidityFactor
  split_ifs <;> linarith

/-- The brightness bucket map is monotone non-decreasing (with the dead
< 80 arm, the realized buckets are 2.5 / 3.0 / 3.5 / 4.0 in increasing
order of brightness). -/
theorem brightnessFactor_mono {x y : ℚ} (h : x ≤ y) :
    brightnessFactor x ≤ brightnessFactor y := by
  unfold brightnessFactor
  split_ifs <;> linarith

/-- pyRound never rounds below the floor. -/
theorem pyRound_ge_floor (q : ℚ) : ⌊q⌋ ≤ pyRound q := by
  unfold pyRound
  split_ifs <;> omega

/-- pyRound never rounds above the ceiling of the floor plus one. -/
theorem pyRound_le_floor_add_one (q : ℚ) : pyRound q ≤ ⌊q⌋ + 1 := by
  unfold pyRound
  split_ifs <;> omega

/-- Round-half-to-even is monotone non-decreasing. -/
theorem pyRound_mono {x y : ℚ} (h : x ≤ y) : pyRound x ≤ pyRound y := by
  rcases lt_or_le ⌊x⌋ ⌊y⌋ with hf | hf
  · calc pyRound x ≤ ⌊x⌋ + 1 := pyRound_le_floor_add_one x
      _ ≤ ⌊y⌋ := by omega
      _ ≤ pyRound y := pyRound_ge_floor y
  · have hfe : ⌊x⌋ = ⌊y⌋ := le_antisymm (Int.floor_le_floor h) hf
    unfold pyRound
    rw [hfe]
    have hxy : x - (⌊y⌋ : ℚ) ≤ y - (⌊y⌋ : ℚ) := by linarith
    split_ifs <;> first | omega | linarith

/-- np.clip is monotone in its clipped argument. -/
theorem clip_mono {x y lo hi : ℚ} (h : x ≤ y) : clip x lo hi ≤ clip y lo hi := by
  unfold clip
  exact min_le_min le_rfl (max_le_max le_rfl h)

/-- The raw weighted score is monotone in all four factors jointly. -/
theorem bcsRaw_mono {a b : FeatureBundle}
    (hc : a.circularity ≤ b.circularity)
    (ht : a.texture_smoothness ≤ b.texture_smoothness)
    (hs : a.solidity ≤ b.solidity)
    (hb : a.brightness_mean ≤ b.brightness_mean) :
    bcsRaw a ≤ bcsRaw b := by
  unfold bcsRaw
  linarith [circularityFactor_mono hc, textureFactor_mono ht,
    solidityFactor_mono hs, brightnessFactor_mono hb]

/-- C6: the returned 1-5 body-condition score is monotone non-decreasing
in circularity, texture_smoothness, solidity, and brightness_mean — a
bundle that is componentwise at most another never scores higher, which
in particular gives monotonicity in each factor individually with the
other three held fixed. -/
theorem c6_bcs_monotone (a b : FeatureBundle)
    (hc : a.circularity ≤ b.circularity)
    (ht : a.texture_smoothness ≤ b.texture_smoothness)
    (hs : a.solidity ≤ b.solidity)
    (hb : a.brightness_mean ≤ b.brightness_mean) :
    (score_body_condition a).score ≤ (score_body_condition b).score := by
  show bcsScore a ≤ bcsScore b
  exact pyRound_mono (clip_mono (bcsRaw_mono hc ht hs hb))

/-- Witness for C6 at two concrete bundles differing in every factor. -/
theorem c6_bcs_monotone_witness :
    (score_body_condition ⟨0.45, 0.5, 0.7, 120⟩).score ≤
      (score_body_condition ⟨0.62, 0.7, 0.8, 150⟩).score :=
  c6_bcs_monotone ⟨0.45, 0.5, 0.7, 120⟩ ⟨0.62, 0.7, 0.8, 150⟩
    (by norm_num) (by norm_num) (by norm_num) (by norm_num)

/-- Witness instance of C7 at the constant-zero draw stream. -/
theorem c7_lameness_ref_case_witness :
    detect_lameness ⟨0.32, 38, 55, 0.37⟩ Option.none (fun _ => 0) =
      ⟨true, 0.90, some Severity.moderate, some 0.95, some "Left side (probable)",
       some 0.32, some (17/55),
       some "⚠️ Moderate lameness detected - Conduct gait analysis and veterinary examination"⟩ :=
  c7_lameness_ref_case (fun _ => 0)

/-- Witness instance of C8 at concrete unequal-length vectors. -/
theorem c8_compare_signatures_symm_witness :
    compare_biometric_signatures (fun x => x) [1, 2] [3] 0.85 =
    compare_biometric_signatures (fun x => x) [3] [1, 2] 0.85 :=
  c8_compare_signatures_symm (fun x => x) [1, 2] [3] 0.85

/-- Witness instance of C9 amended at a concrete healthy input with an
out-of-range temperature. -/
theorem c9_vitals_frame_amended_witness :
    (fuse ⟨4, 0.8, "Good - Optimal health", Option.none⟩
        ⟨false, 0.35, Option.some Severity.none, Option.some 0, Option.none, Option.none,
         Option.none, Option.none⟩
        ⟨[], 0, false, Severity.none⟩
        (Option.some ⟨Option.some 40, Option.none, Option.none, Option.none⟩)).health_score =
      (fuse ⟨4, 0.8, "Good - Optimal health", Option.none⟩
        ⟨false, 0.35, Option.some Severity.none, Option.some 0, Option.none, Option.none,
         Option.none, Option.none⟩
        ⟨[], 0, false, Severity.none⟩ Option.none).health_score :=
  (c9_vitals_frame_amended ⟨4, 0.8, "Good - Optimal health", Option.none⟩
    ⟨false, 0.35, Option.some Severity.none, Option.some 0, Option.none, Option.none,
     Option.none, Option.none⟩
    ⟨[], 0, false, Severity.none⟩
    ⟨Option.some 40, Option.none, Option.none, Option.none⟩).1

/-- Witness instance of C10 at a concrete low-scoring input. -/
theorem c10_status_bucket_agrees_witness :
    (fuse ⟨1, 0.2, "Emaciated - Immediate attention required", Option.none⟩
        ⟨true, 0.90, Option.some Severity.severe, Option.some 1, Option.some "Left side (probable)",
         Option.none, Option.none, Option.none⟩
        ⟨[], 0, false, Severity.none⟩ Option.none).overall_status =
      statusOfScore (fuse ⟨1, 0.2, "Emaciated - Immediate attention required", Option.none⟩
        ⟨true, 0.90, Option.some Severity.severe, Option.some 1, Option.some "Left side (probable)",
         Option.none, Option.none, Option.none⟩
        ⟨[], 0, false, Severity.none⟩ Option.none).health_score :=
  c10_status_bucket_agrees ⟨1, 0.2, "Emaciated - Immediate attention required", Option.none⟩
    ⟨true, 0.90, Option.some Severity.severe, Option.some 1, Option.some "Left side (probable)",
     Option.none, Option.none, Option.none⟩
    ⟨[], 0, false, Severity.none⟩ Option.none
